import Mathlib

/-!
Verification of the function-agents library (TypeScript) against its design
specification, via a shallow embedding in Lean.

Modelling conventions:
* TypeScript numbers are modelled as rationals (the arithmetic in the source
  is written with the ordinary `+ - * /` operators).
* JavaScript runtime primitives the agents call (the remote chat-completion
  client, JSON.parse, dynamic evaluation via new Function, string coercion,
  wall-clock readings) are passed in as explicit environment parameters:
  a throwing primitive is an `Except` value, elapsed wall-clock spans are
  explicit numeric parameters.
* A JavaScript exception is modelled as its message string; error strings in
  the source that interpolate a JSON.stringify of the whole response keep
  only their literal prefix.
* `Option` models null/undefined; JS truthiness on strings is the test
  against the empty string that the source relies on.
-/

/-- A JavaScript exception, reduced to its message text. -/
abbrev JsError := String

/-- JSON values (argument payloads decoded by JSON.parse). -/
inductive Json where
  | null : Json
  | bool : Bool → Json
  | num : ℚ → Json
  | str : String → Json
  | arr : List Json → Json
  | obj : List (String × Json) → Json

/-- Property lookup `o[k]` on a parsed JS object: first entry with the key,
`none` for a missing key (undefined). -/
def jsLookup (o : List (String × Json)) (k : String) : Option Json :=
  (o.find? (fun p => p.1 = k)).map (fun p => p.2)

/-- One property of a CallableSchema's `parameters.properties` mapping. -/
structure ParamSpec where
  type : String
  description : String

/-- `parameters` of a CallableSchema: properties keep insertion order. -/
structure FunctionParameters where
  type : String
  properties : List (String × ParamSpec)
  required : List String

/-- A callable-function schema in the OpenAI function-calling convention. -/
structure CallableSchema where
  name : String
  description : String
  parameters : FunctionParameters

/-- A structured function-call invocation returned by the Completion Client. -/
structure FunctionCall where
  name : String
  arguments : String

/-- `choices[0].message` of a Completion Client response. -/
structure CompletionMessage where
  content : Option String
  function_call : Option FunctionCall

/-- A role-tagged chat message. -/
structure ChatMessage where
  role : String
  content : String
  name : Option String := none

/-- A chat-completion request as the agents assemble it. -/
structure CompletionRequest where
  model : String
  messages : List ChatMessage
  functions : List CallableSchema := []
  temperature : ℚ

/-- `FunctionAgentJsonResponse` from src/types.ts. -/
structure FunctionAgentJsonResponse where
  json : Json
  success : Bool
  duration : ℕ
  error : Option JsError := none

/-! ## OpenAIMathAgent: operand record and the pure operation dispatch -/

/-- `MathInput` as extracted by the data-transformation step; a field the
model failed to supply is `none` (the `== null` checks in the source). -/
structure MathInput where
  input1 : Option ℚ
  input2 : Option ℚ
  operation : Option String

/-- Result record of `OpenAIMathAgent.mathOperation` (durations of this pure
in-process method are not part of the functional model). -/
structure MathOpResponse where
  json : Json
  success : Bool
  error : Option JsError := none

/-- `OpenAIMathAgent.add`. -/
def OpenAIMathAgent.add (input1 input2 : ℚ) : ℚ := input1 + input2

/-- `OpenAIMathAgent.subtract`. -/
def OpenAIMathAgent.subtract (input1 input2 : ℚ) : ℚ := input1 - input2

/-- `OpenAIMathAgent.multiply`. -/
def OpenAIMathAgent.multiply (input1 input2 : ℚ) : ℚ := input1 * input2

/-- `OpenAIMathAgent.divide`: throws on a second operand of exactly zero. -/
def OpenAIMathAgent.divide (input1 input2 : ℚ) : Except JsError ℚ :=
  if input2 = 0 then .error "Cannot divide by zero" else .ok (input1 / input2)

/-- `OpenAIMathAgent.mathOperation`: null checks in source order, then the
switch over the operation tag; the try/catch converts the divide throw into
a failure record. -/
def OpenAIMathAgent.mathOperation (mathInput : MathInput) : MathOpResponse :=
  match mathInput.operation with
  | none => { json := .obj [], success := false, error := some "No operation found in math input" }
  | some operation =>
    match mathInput.input1 with
    | none => { json := .obj [], success := false, error := some "No input1 found in math input" }
    | some input1 =>
      match mathInput.input2 with
      | none => { json := .obj [], success := false, error := some "No input2 found in math input" }
      | some input2 =>
        if operation = "add" then
          { json := .obj [("result", .num (OpenAIMathAgent.add input1 input2))], success := true }
        else if operation = "subtract" then
          { json := .obj [("result", .num (OpenAIMathAgent.subtract input1 input2))], success := true }
        else if operation = "multiply" then
          { json := .obj [("result", .num (OpenAIMathAgent.multiply input1 input2))], success := true }
        else if operation = "divide" then
          match OpenAIMathAgent.divide input1 input2 with
          | .error e => { json := .obj [], success := false, error := some e }
          | .ok r => { json := .obj [("result", .num r)], success := true }
        else
          { json := .obj [], success := false, error := some "Invalid operation" }

/-- C5: divide with a second operand of exactly zero always fails with the
division-by-zero error and never yields a numeric result. -/
theorem divide_by_zero_always_fails (a : ℚ) :
    OpenAIMathAgent.mathOperation ⟨some a, some 0, some "divide"⟩ =
      { json := .obj [], success := false, error := some "Cannot divide by zero" } := by
  simp [OpenAIMathAgent.mathOperation, OpenAIMathAgent.divide]

/-- C6: add, subtract and multiply dispatch deterministically to ordinary
arithmetic and report success. -/
theorem math_dispatch_matches_arithmetic (a b : ℚ) :
    OpenAIMathAgent.mathOperation ⟨some a, some b, some "add"⟩ =
      { json := .obj [("result", .num (a + b))], success := true } ∧
    OpenAIMathAgent.mathOperation ⟨some a, some b, some "subtract"⟩ =
      { json := .obj [("result", .num (a - b))], success := true } ∧
    OpenAIMathAgent.mathOperation ⟨some a, some b, some "multiply"⟩ =
      { json := .obj [("result", .num (a * b))], success := true } := by
  refine ⟨?_, ?_, ?_⟩ <;>
    simp [OpenAIMathAgent.mathOperation, OpenAIMathAgent.add,
      OpenAIMathAgent.subtract, OpenAIMathAgent.multiply]

/-- C7: the operation dispatch succeeds exactly when all three fields are
present and the operation tag is supported (and divide does not hit a zero
second operand); in particular it fails on an unsupported tag and on any
absent field. -/
theorem math_dispatch_success_characterization (m : MathInput) :
    (OpenAIMathAgent.mathOperation m).success = true ↔
      (m.input1.isSome ∧ m.input2.isSome ∧
        (m.operation = some "add" ∨ m.operation = some "subtract" ∨
         m.operation = some "multiply" ∨
         (m.operation = some "divide" ∧ m.input2 ≠ some 0))) := by
  obtain ⟨i1, i2, op⟩ := m
  cases op with
  | none => simp [OpenAIMathAgent.mathOperation]
  | some operation =>
    cases i1 with
    | none => simp [OpenAIMathAgent.mathOperation]
    | some a =>
      cases i2 with
      | none => simp [OpenAIMathAgent.mathOperation]
      | some b =>
        by_cases hadd : operation = "add"
        · simp [OpenAIMathAgent.mathOperation, hadd]
        · by_cases hsub : operation = "subtract"
          · simp [OpenAIMathAgent.mathOperation, hadd, hsub]
          · by_cases hmul : operation = "multiply"
            · simp [OpenAIMathAgent.mathOperation, hadd, hsub, hmul]
            · by_cases hdiv : operation = "divide"
              · by_cases hz : b = 0
                · simp [OpenAIMathAgent.mathOperation, OpenAIMathAgent.divide,
                    hadd, hsub, hmul, hdiv, hz]
                · simp [OpenAIMathAgent.mathOperation, OpenAIMathAgent.divide,
                    hadd, hsub, hmul, hdiv, hz]
              · simp [OpenAIMathAgent.mathOperation, hadd, hsub, hmul, hdiv]

/-! ## Schema Interpretation Step (OpenAIJavaScriptInterpreterAgent.run) -/

/-- One `{name, type, description}` triple of the interpreterFunction's
`functionArguments` list. -/
structure FunctionArgumentTriple where
  name : String
  type : String
  description : String

/-- JS property assignment `acc[k] = v` on an object literal: replaces the
value in place when the key exists, otherwise appends the key. -/
def jsObjectSet (acc : List (String × ParamSpec)) (k : String) (v : ParamSpec) :
    List (String × ParamSpec) :=
  if acc.any (fun p => p.1 = k) then
    acc.map (fun p => if p.1 = k then (k, v) else p)
  else
    acc ++ [(k, v)]

/-- The reduce over `args.functionArguments` that builds
`parameters.properties` in the interpreter agent. -/
def interpretedProperties (functionArguments : List FunctionArgumentTriple) :
    List (String × ParamSpec) :=
  functionArguments.foldl
    (fun acc arg => jsObjectSet acc arg.name ⟨arg.type, arg.description⟩) []

/-- The CallableSchema the Schema Interpretation Step reshapes out of a
well-formed interpreterFunction response. -/
def interpretSchema (functionName functionDescription : String)
    (functionArguments : List FunctionArgumentTriple) : CallableSchema :=
  { name := functionName,
    description := functionDescription,
    parameters :=
      { type := "object",
        properties := interpretedProperties functionArguments,
        required := functionArguments.map (fun arg => arg.name) } }

theorem jsObjectSet_keys_mem (acc : List (String × ParamSpec)) (k : String)
    (v : ParamSpec) (s : String) :
    s ∈ (jsObjectSet acc k v).map Prod.fst ↔ s ∈ acc.map Prod.fst ∨ s = k := by
  unfold jsObjectSet
  by_cases h : acc.any (fun p => p.1 = k)
  · rw [if_pos h]
    rw [List.any_eq_true] at h
    obtain ⟨p, hp, hpk⟩ := h
    simp only [decide_eq_true_eq] at hpk
    have hkeys : (acc.map (fun p => if p.1 = k then (k, v) else p)).map Prod.fst
        = acc.map Prod.fst := by
      rw [List.map_map]
      refine List.map_congr_left ?_
      intro q _
      by_cases hq : q.1 = k
      · simp [hq]
      · simp [hq]
    rw [hkeys]
    constructor
    · exact fun hs => Or.inl hs
    · rintro (hs | rfl)
      · exact hs
      · exact hpk ▸ List.mem_map_of_mem Prod.fst hp
  · rw [if_neg h]
    simp

theorem interpretedProperties_keys_mem (functionArguments : List FunctionArgumentTriple)
    (acc : List (String × ParamSpec)) (s : String) :
    s ∈ ((functionArguments.foldl
        (fun acc arg => jsObjectSet acc arg.name ⟨arg.type, arg.description⟩) acc).map Prod.fst)
      ↔ s ∈ acc.map Prod.fst ∨ s ∈ functionArguments.map (fun arg => arg.name) := by
  induction functionArguments generalizing acc with
  | nil => simp
  | cons a rest ih =>
    simp only [List.foldl_cons, List.map_cons, List.mem_cons]
    rw [ih, jsObjectSet_keys_mem]
    tauto

/-- C1: for every interpreted schema, the `required` list and the key set of
`parameters.properties` contain exactly the same names. -/
theorem interpreted_schema_required_eq_property_keys
    (functionName functionDescription : String)
    (functionArguments : List FunctionArgumentTriple) (s : String) :
    s ∈ (interpretSchema functionName functionDescription functionArguments).parameters.required
      ↔ s ∈ (interpretSchema functionName functionDescription
          functionArguments).parameters.properties.map Prod.fst := by
  simp only [interpretSchema, interpretedProperties]
  rw [interpretedProperties_keys_mem]
  simp

/-! ## Invocation Step: building the call argument list -/

/-- `paramNames.map(name => args[name])` over
`Object.keys(interpretedFunction.parameters.properties)`: the value list is
built strictly in the insertion order of the schema's properties. -/
def buildParamValues (schema : CallableSchema) (args : List (String × Json)) :
    List (Option Json) :=
  (schema.parameters.properties.map Prod.fst).map (fun name => jsLookup args name)

theorem jsLookup_eq_none_of_not_mem (args : List (String × Json)) (k : String)
    (h : ∀ p ∈ args, p.1 ≠ k) : jsLookup args k = none := by
  unfold jsLookup
  rw [List.find?_eq_none.mpr]
  · rfl
  · intro p hp
    simpa using h p hp

/-- C2: the Invocation Step's argument value list is the schema's property
names in insertion order, each resolved in the parsed arguments; it depends
only on the arguments as a key-to-value mapping (not on their key order),
and a property name missing from the arguments resolves to undefined. -/
theorem invocation_args_insertion_order (schema : CallableSchema)
    (args1 args2 : List (String × Json))
    (h : ∀ k, jsLookup args1 k = jsLookup args2 k) :
    buildParamValues schema args1 =
      (schema.parameters.properties.map Prod.fst).map (fun name => jsLookup args1 name) ∧
    buildParamValues schema args1 = buildParamValues schema args2 ∧
    (∀ n, (∀ p ∈ args1, p.1 ≠ n) → jsLookup args1 n = none) := by
  refine ⟨rfl, ?_, ?_⟩
  · unfold buildParamValues
    exact List.map_congr_left (fun n _ => h n)
  · exact fun n hn => jsLookup_eq_none_of_not_mem args1 n hn

/-- Witness for C2 at a two-parameter schema whose arguments JSON lists the
keys in the opposite order, with one name absent from the arguments. -/
theorem invocation_args_insertion_order_witness :
    buildParamValues
        ⟨"f", "d", ⟨"object", [("x", ⟨"number", "dx"⟩), ("y", ⟨"number", "dy"⟩)], ["x", "y"]⟩⟩
        [("y", .num 2), ("x", .num 1)] =
      buildParamValues
        ⟨"f", "d", ⟨"object", [("x", ⟨"number", "dx"⟩), ("y", ⟨"number", "dy"⟩)], ["x", "y"]⟩⟩
        [("x", .num 1), ("y", .num 2)] ∧
    jsLookup [("y", Json.num 2), ("x", Json.num 1)] "z" = none := by
  have h := invocation_args_insertion_order
    ⟨"f", "d", ⟨"object", [("x", ⟨"number", "dx"⟩), ("y", ⟨"number", "dy"⟩)], ["x", "y"]⟩⟩
    [("y", .num 2), ("x", .num 1)] [("x", .num 1), ("y", .num 2)]
    (fun k => by
      by_cases hx : "x" = k
      · subst hx; rfl
      · by_cases hy : "y" = k
        · subst hy; rfl
        · rw [jsLookup_eq_none_of_not_mem _ _ ?_, jsLookup_eq_none_of_not_mem _ _ ?_]
          · intro p hp
            simp only [List.mem_cons, List.not_mem_nil, or_false] at hp
            rcases hp with rfl | rfl
            · exact hx
            · exact hy
          · intro p hp
            simp only [List.mem_cons, List.not_mem_nil, or_false] at hp
            rcases hp with rfl | rfl
            · exact hy
            · exact hx)
  refine ⟨h.2.1, h.2.2 "z" ?_⟩
  intro p hp
  simp only [List.mem_cons, List.not_mem_nil, or_false] at hp
  rcases hp with rfl | rfl <;> decide

/-! ## Construction-time validation -/

/-- Immutable configuration a constructed BaseAgent holds. -/
structure BaseAgentConfig where
  openai_api_key : String
  model : String

/-- `BaseAgent.constructor`: throws on an empty API key or model. -/
def BaseAgent.construct (openai_api_key model : String) :
    Except JsError BaseAgentConfig :=
  if openai_api_key = "" then .error "Missing OpenAI API key"
  else if model = "" then .error "Missing model identifier"
  else .ok ⟨openai_api_key, model⟩

/-- Immutable configuration a constructed OpenAIMathAgent holds. -/
structure OpenAIMathAgentConfig where
  openai_api_key : String
  model : String
  systemMessage : String

/-- Default system message of the OpenAIMathAgent constructor. -/
def mathDefaultSystemMessage : String :=
  "You are a math expert agent. You will take inputs of multiple numbers and compute operations and use your functions to solve the equations.  Do not attempt to solve the problem without using your defined functions."

/-- `OpenAIMathAgent.constructor`: stores its fields with no validation of
the API key or the model identifier. -/
def OpenAIMathAgent.construct (openai_api_key model systemMessage : String) :
    Except JsError OpenAIMathAgentConfig :=
  .ok ⟨openai_api_key, model, systemMessage⟩

/-- C8 counterexample: constructing the OpenAIMathAgent with an empty API
credential and an empty model identifier succeeds, so construction-time
validation does not hold for every agent in the repository. -/
theorem mathAgent_empty_credentials_construct_succeeds :
    OpenAIMathAgent.construct "" "" mathDefaultSystemMessage =
      .ok ⟨"", "", mathDefaultSystemMessage⟩ := rfl

/-- C8 amended: agents built on the BaseAgent constructor fail construction
exactly when the API credential or the model identifier is empty, while the
standalone constructors (OpenAIMathAgent among them) accept any strings and
never fail. -/
theorem construction_validation_only_in_base_agent
    (openai_api_key model systemMessage : String) :
    ((BaseAgent.construct openai_api_key model).isOk = true ↔
      (openai_api_key ≠ "" ∧ model ≠ "")) ∧
    (OpenAIMathAgent.construct openai_api_key model systemMessage).isOk = true := by
  constructor
  · unfold BaseAgent.construct
    by_cases hk : openai_api_key = ""
    · simp [hk, Except.isOk, Except.toBool]
    · by_cases hm : model = ""
      · simp [hk, hm, Except.isOk, Except.toBool]
      · simp [hk, hm, Except.isOk, Except.toBool]
  · rfl

/-! ## DataTransformationAgent (the duration-stamping variant) -/

/-- Environment of one DataTransformationAgent run: its configuration plus
the JS runtime primitives it calls (remote client, JSON.parse). -/
structure DtEnv where
  model : String
  functionDefinition : CallableSchema
  systemMessage : String
  client : CompletionRequest → Except JsError CompletionMessage
  parseArgs : String → Except JsError Json

/-- The single completion request the agent issues: system message, user
message, its schema as the only callable, temperature 0. -/
def dtRequest (env : DtEnv) (userMessage : String) : CompletionRequest :=
  { model := env.model,
    messages := [⟨"system", env.systemMessage, none⟩, ⟨"user", userMessage, none⟩],
    functions := [env.functionDefinition],
    temperature := 0 }

/-- Body of `DataTransformationAgent.run` inside its try/catch: every throw
(client fault, absent or empty-named function call, malformed arguments) is
caught and becomes the typed failure record; `elapsed` is the wall-clock
span stamped as the duration. -/
def dtRunBody (env : DtEnv) (userMessage : String) (elapsed : ℕ) :
    FunctionAgentJsonResponse :=
  match env.client (dtRequest env userMessage) with
  | .error e => { json := .obj [], success := false, duration := elapsed, error := some e }
  | .ok msg =>
    match msg.function_call with
    | none =>
      { json := .obj [], success := false, duration := elapsed,
        error := some "No function call found in response" }
    | some fc =>
      if fc.name = "" ∨ fc.arguments = "" then
        { json := .obj [], success := false, duration := elapsed,
          error := some "No function call found in response" }
      else
        match env.parseArgs fc.arguments with
        | .error e => { json := .obj [], success := false, duration := elapsed, error := some e }
        | .ok args => { json := args, success := true, duration := elapsed }

/-- `DataTransformationAgent.run`: the guard on an empty user message sits
before the try/catch, so that one throw escapes to the caller. -/
def DataTransformationAgent.run (env : DtEnv) (userMessage : String)
    (elapsed : ℕ) : Except JsError FunctionAgentJsonResponse :=
  if userMessage = "" then .error "Missing user message"
  else .ok (dtRunBody env userMessage elapsed)

/-- A concrete environment for closed evaluations of the agent. -/
def dtEnvTrivial : DtEnv :=
  { model := "gpt-4-0613",
    functionDefinition := ⟨"convertTemperature", "d", ⟨"object", [], []⟩⟩,
    systemMessage := "You are a data transformation agent.",
    client := fun _ => .error "network unavailable",
    parseArgs := fun _ => .error "unexpected token" }

/-- C4 counterexample: running the Data Transformation agent on the empty
user message throws (the validation error escapes the agent boundary instead
of being converted into a typed failure result). -/
theorem dt_run_empty_message_throws :
    DataTransformationAgent.run dtEnvTrivial "" 0 = .error "Missing user message" := rfl

/-- C4 amended: on every non-empty input the agent boundary lets no
exception escape: the run returns its typed result, any internal error is
converted into success = false with a serialized error description, and the
elapsed duration is stamped; only the empty-input validation throw of the
entry guard escapes. -/
theorem dt_run_no_escape_on_nonempty (env : DtEnv) (userMessage : String)
    (elapsed : ℕ) (h : userMessage ≠ "") :
    ∃ r, DataTransformationAgent.run env userMessage elapsed = .ok r ∧
      (r.success = false → r.error.isSome) ∧ r.duration = elapsed := by
  refine ⟨dtRunBody env userMessage elapsed, ?_, ?_, ?_⟩
  · simp [DataTransformationAgent.run, h]
  · unfold dtRunBody
    cases hc : env.client (dtRequest env userMessage) with
    | error e => simp
    | ok msg =>
      cases hf : msg.function_call with
      | none => simp [hf]
      | some fc =>
        by_cases hn : fc.name = "" ∨ fc.arguments = ""
        · simp [hf, hn]
        · cases hp : env.parseArgs fc.arguments with
          | error e => simp [hf, hn, hp]
          | ok args => simp [hf, hn, hp]
  · unfold dtRunBody
    cases hc : env.client (dtRequest env userMessage) with
    | error e => simp
    | ok msg =>
      cases hf : msg.function_call with
      | none => simp [hf]
      | some fc =>
        by_cases hn : fc.name = "" ∨ fc.arguments = ""
        · simp [hf, hn]
        · cases hp : env.parseArgs fc.arguments with
          | error e => simp [hf, hn, hp]
          | ok args => simp [hf, hn, hp]

/-- Witness for the amended C4 at a concrete non-empty message. -/
theorem dt_run_no_escape_on_nonempty_witness :
    ∃ r, DataTransformationAgent.run dtEnvTrivial "convert 32F to C" 7 = .ok r ∧
      (r.success = false → r.error.isSome) ∧ r.duration = 7 :=
  dt_run_no_escape_on_nonempty dtEnvTrivial "convert 32F to C" 7 (by decide)

/-- C9: against a deterministic Completion Client, two runs of the Data
Transformation agent with the same schema, system message and user message
produce identical structured output (same json mapping and success flag),
whatever the wall-clock spans of the two invocations were. -/
theorem dt_run_deterministic_output (env : DtEnv) (userMessage : String)
    (elapsed1 elapsed2 : ℕ) :
    (DataTransformationAgent.run env userMessage elapsed1).map
        (fun r => (r.json, r.success)) =
      (DataTransformationAgent.run env userMessage elapsed2).map
        (fun r => (r.json, r.success)) := by
  unfold DataTransformationAgent.run
  by_cases h : userMessage = ""
  · simp [h]
  · simp only [if_neg h, Except.map]
    unfold dtRunBody
    cases hc : env.client (dtRequest env userMessage) with
    | error e => simp
    | ok msg =>
      cases hf : msg.function_call with
      | none => simp [hf]
      | some fc =>
        by_cases hn : fc.name = "" ∨ fc.arguments = ""
        · simp [hf, hn]
        · cases hp : env.parseArgs fc.arguments with
          | error e => simp [hf, hn, hp]
          | ok args => simp [hf, hn, hp]

/-! ## OpenAIMathAgent.run: the outer two-step flow -/

/-- The fixed dataTransformation callable the math agent offers on its first
completion request. -/
def dataTransformationFunction : CallableSchema :=
  { name := "dataTransformation",
    description := "This function will take the user\x27s request and return input1, input2, and operation.",
    parameters :=
      { type := "object",
        properties :=
          [("userMessage", ⟨"string", "The user message requesting a math operation."⟩)],
        required := ["userMessage"] } }

/-- The fixed mathInputFunction schema handed to the inner data
transformation step. -/
def mathInputFunction : CallableSchema :=
  { name := "mathInputFunction",
    description := "This function will take the user\x27s request and return input1, input2, and operation.",
    parameters :=
      { type := "object",
        properties :=
          [("input1", ⟨"number", "The first input number."⟩),
           ("input2", ⟨"number", "The second input number."⟩),
           ("operation", ⟨"string", "The operation to perform on the two inputs."⟩)],
        required := ["input1", "input2", "operation"] } }

/-- Result of the math agent's inner `dataTransformation` method, with the
`as MathInput` cast of the source applied to its json payload. -/
structure MathDtResult where
  success : Bool
  json : MathInput
  error : Option JsError := none

/-- Environment of one OpenAIMathAgent run: configuration plus the runtime
primitives and the inner data-transformation collaborator. -/
structure MathEnv where
  model : String
  systemMessage : String
  client : CompletionRequest → Except JsError CompletionMessage
  parseArgs : String → Except JsError (List (String × Json))
  dataTransformation : CallableSchema → Option Json → MathDtResult

/-- The first completion request of `OpenAIMathAgent.run`: system and user
message with the dataTransformation schema as the only callable. -/
def mathFirstRequest (env : MathEnv) (userMessage : String) : CompletionRequest :=
  { model := env.model,
    messages := [⟨"system", env.systemMessage, none⟩, ⟨"user", userMessage, none⟩],
    functions := [dataTransformationFunction],
    temperature := 0 }

/-- `OpenAIMathAgent.run`: issues the first request, requires a function
call with a non-empty name and arguments, parses the arguments, rejects a
function name other than dataTransformation, then chains the inner data
transformation and the pure operation dispatch; every throw is converted by
the outer catch into the typed failure record. -/
def OpenAIMathAgent.run (env : MathEnv) (userMessage : String) (elapsed : ℕ) :
    FunctionAgentJsonResponse :=
  match env.client (mathFirstRequest env userMessage) with
  | .error e => { json := .obj [], success := false, duration := elapsed, error := some e }
  | .ok msg =>
    match msg.function_call with
    | none =>
      { json := .obj [], success := false, duration := elapsed,
        error := some "No function call found in response" }
    | some fc =>
      if fc.name = "" ∨ fc.arguments = "" then
        { json := .obj [], success := false, duration := elapsed,
          error := some "No function call found in response" }
      else
        match env.parseArgs fc.arguments with
        | .error e =>
          { json := .obj [], success := false, duration := elapsed, error := some e }
        | .ok args =>
          if fc.name ≠ "dataTransformation" then
            { json := .obj [], success := false, duration := elapsed,
              error := some "Function name does not match expected function name dataTransformation" }
          else
            match env.dataTransformation mathInputFunction (jsLookup args "userMessage") with
            | dtResult =>
              if dtResult.success = false then
                { json := .obj [], success := false, duration := elapsed,
                  error := some "Error running data transformation agent" }
              else
                match OpenAIMathAgent.mathOperation dtResult.json with
                | opResult =>
                  if opResult.success = false then
                    { json := .obj [], success := false, duration := elapsed,
                      error := some "Error running math operation agent" }
                  else
                    { json := opResult.json, success := true, duration := elapsed }

/-- C10: when the first response's function call carries a name other than
dataTransformation (with non-empty name and parseable arguments), the run
fails instead of proceeding; and whenever the run succeeds, the returned
function name was exactly dataTransformation. -/
theorem mathAgent_function_name_check (env : MathEnv) (userMessage : String)
    (elapsed : ℕ) :
    (∀ mc fc args,
      env.client (mathFirstRequest env userMessage) = .ok ⟨mc, some fc⟩ →
      fc.name ≠ "" → fc.arguments ≠ "" →
      env.parseArgs fc.arguments = .ok args →
      fc.name ≠ "dataTransformation" →
      (OpenAIMathAgent.run env userMessage elapsed).success = false) ∧
    ((OpenAIMathAgent.run env userMessage elapsed).success = true →
      ∃ mc fc, env.client (mathFirstRequest env userMessage) = .ok ⟨mc, some fc⟩ ∧
        fc.name = "dataTransformation") := by
  constructor
  · intro mc fc args hc hname hargs hparse hne
    simp [OpenAIMathAgent.run, hc, hname, hargs, hparse, hne]
  · intro hsucc
    unfold OpenAIMathAgent.run at hsucc
    cases hc : env.client (mathFirstRequest env userMessage) with
    | error e => simp [hc] at hsucc
    | ok msg =>
      simp only [hc] at hsucc
      cases hf : msg.function_call with
      | none => simp [hf] at hsucc
      | some fc =>
        simp only [hf] at hsucc
        by_cases hn : fc.name = "" ∨ fc.arguments = ""
        · simp [hn] at hsucc
        · rw [if_neg hn] at hsucc
          cases hp : env.parseArgs fc.arguments with
          | error e => simp [hp] at hsucc
          | ok args =>
            simp only [hp] at hsucc
            by_cases hne : fc.name ≠ "dataTransformation"
            · simp [hne] at hsucc
            · refine ⟨msg.content, fc, ?_, ?_⟩
              · rw [← hf]
              · simpa using hne

/-- Witness for C10: a concrete client returning the wrong function name
makes the run fail. -/
theorem mathAgent_function_name_check_witness :
    (OpenAIMathAgent.run
        { model := "gpt-4-0613",
          systemMessage := mathDefaultSystemMessage,
          client := fun _ => .ok ⟨none, some ⟨"somethingElse", "\x7b\x7d"⟩⟩,
          parseArgs := fun _ => .ok [],
          dataTransformation := fun _ _ => ⟨true, ⟨some 1, some 2, some "add"⟩, none⟩ }
        "add 5 and 2" 3).success = false := by
  refine (mathAgent_function_name_check _ "add 5 and 2" 3).1 none
    ⟨"somethingElse", "\x7b\x7d"⟩ [] rfl ?_ ?_ rfl ?_ <;> decide

/-! ## JavaScriptCodeInterpreterAgent: the generate-interpret-execute-explain
pipeline, with the trace of the completion requests it issues directly -/

/-- `FunctionAgentCodeResponse` from src/types.ts. -/
structure FunctionAgentCodeResponse where
  code : String
  language : String
  success : Bool
  duration : ℕ
  error : Option JsError := none

/-- The interpreter sub-agent's response at the pipeline boundary, after the
source casts its json payload to a callable schema. -/
structure InterpAgentResponse where
  json : CallableSchema
  success : Bool
  duration : ℕ
  error : Option JsError := none

/-- `FunctionAgentMessageResponse` from src/types.ts. -/
structure FunctionAgentMessageResponse where
  message : String
  success : Bool
  duration : ℕ
  error : Option JsError := none

/-- Environment of one pipeline run: the remote client and the JS runtime
primitives, the two sub-agents, and the wall-clock span each step takes
(a cost per remote request, fixed spans for the in-process primitives). -/
structure PipelineEnv where
  model : String
  client : CompletionRequest → Except JsError CompletionMessage
  clientCost : CompletionRequest → ℕ
  devAgent : String → FunctionAgentCodeResponse
  devCost : ℕ
  interpAgent : String → InterpAgentResponse
  interpCost : ℕ
  parseArgs : String → Except JsError (List (String × Json))
  evalGenerated : String → List String → List (Option Json) → Except JsError Json
  evalCost : ℕ
  jsToText : Json → String

/-- Step A request: the meta-prompt turn (no callable schemas offered). -/
def metaRequest (model userMessage : String) : CompletionRequest :=
  { model := model,
    messages :=
      [⟨"system", "You are an advanced Javascript Analytics agent and a prompt engineering expert. Think step by step. In your response, include only the prompt for generating a JavaScript function to complete the task in the user message. Do not provide any commentary or ask any additional questions. Think step by step.", none⟩,
       ⟨"user", userMessage, none⟩],
    functions := [],
    temperature := 0 }

/-- Step D request: the original user message with the interpreted schema as
the only allowed callable. -/
def invokeRequest (model userMessage : String) (schema : CallableSchema) :
    CompletionRequest :=
  { model := model,
    messages :=
      [⟨"system", "You are an advanced Javascript Analytics agent. You must use your functions to accomplish the task at hand. Do not provide any commentary or ask any additional questions, just use your functions.", none⟩,
       ⟨"user", userMessage, none⟩],
    functions := [schema],
    temperature := 0 }

/-- Step E request: the user message again plus the computed result as a
synthetic function-role message. -/
def finalRequest (model userMessage : String) (functionName resultText : String) :
    CompletionRequest :=
  { model := model,
    messages :=
      [⟨"system", "You are an advanced Javascript Analytics agent. Do not show code examples to the user, just return the requested result with a brief and friendly manner.", none⟩,
       ⟨"user", userMessage, none⟩,
       ⟨"function", resultText, some functionName⟩],
    functions := [],
    temperature := 0 }

/-- A pipeline run's terminal result together with the ordered list of the
completion requests the outer agent issued directly to the client. -/
structure PipelineRunOutput where
  result : FunctionAgentMessageResponse
  requests : List CompletionRequest

/-- The generic failure record of the pipeline's catch block. -/
def pipelineFailure (elapsed : ℕ) (e : JsError) : FunctionAgentMessageResponse :=
  { message := "An error occurred while running the agent.",
    success := false, duration := elapsed, error := some e }

/-- `JavaScriptCodeInterpreterAgent.run`: strictly linear metaprompt → code
generation → schema interpretation → invocation with dynamic evaluation →
explanation; the first failing step throws into the outer catch, which
stamps the elapsed time up to that point; nothing is retried. -/
def codeInterpreterRun (env : PipelineEnv) (userMessage : String) :
    PipelineRunOutput :=
  let reqA := metaRequest env.model userMessage
  let tA := env.clientCost reqA
  match env.client reqA with
  | .error e => ⟨pipelineFailure tA e, [reqA]⟩
  | .ok msgA =>
    match msgA.content with
    | none => ⟨pipelineFailure tA "No content found in response", [reqA]⟩
    | some promptToGenerateFunction =>
      if promptToGenerateFunction = "" then
        ⟨pipelineFailure tA "No content found in response", [reqA]⟩
      else
        let functionResponse := env.devAgent promptToGenerateFunction
        let tB := tA + env.devCost
        if functionResponse.success = false then
          ⟨pipelineFailure tB "Error generating function", [reqA]⟩
        else
          let interpreterResponse := env.interpAgent functionResponse.code
          let tC := tB + env.interpCost
          if interpreterResponse.success = false then
            ⟨pipelineFailure tC "Error interpreting function", [reqA]⟩
          else
            let interpretedFunction := interpreterResponse.json
            let reqD := invokeRequest env.model userMessage interpretedFunction
            let tD := tC + env.clientCost reqD
            match env.client reqD with
            | .error e => ⟨pipelineFailure tD e, [reqA, reqD]⟩
            | .ok msgD =>
              match msgD.function_call with
              | none =>
                ⟨pipelineFailure tD "No function call found in functionCallResponse", [reqA, reqD]⟩
              | some fc =>
                if fc.name = "" ∨ fc.arguments = "" then
                  ⟨pipelineFailure tD "No function call found in functionCallResponse", [reqA, reqD]⟩
                else
                  match env.parseArgs fc.arguments with
                  | .error e => ⟨pipelineFailure tD e, [reqA, reqD]⟩
                  | .ok args =>
                    let paramNames := interpretedFunction.parameters.properties.map Prod.fst
                    let paramValues := buildParamValues interpretedFunction args
                    let tEval := tD + env.evalCost
                    match env.evalGenerated functionResponse.code paramNames paramValues with
                    | .error e => ⟨pipelineFailure tEval e, [reqA, reqD]⟩
                    | .ok functionResult =>
                      let reqE := finalRequest env.model userMessage
                        interpretedFunction.name (env.jsToText functionResult)
                      let tE := tEval + env.clientCost reqE
                      match env.client reqE with
                      | .error e => ⟨pipelineFailure tE e, [reqA, reqD, reqE]⟩
                      | .ok msgE =>
                        match msgE.content with
                        | none =>
                          ⟨pipelineFailure tE "No content found in finalResponse", [reqA, reqD, reqE]⟩
                        | some finalContent =>
                          if finalContent = "" then
                            ⟨pipelineFailure tE "No content found in finalResponse", [reqA, reqD, reqE]⟩
                          else
                            ⟨{ message := finalContent, success := true, duration := tE },
                              [reqA, reqD, reqE]⟩

/-- C3: when Steps A through C succeed, the invocation response is well
formed and its arguments parse, but dynamic evaluation of the generated code
throws, the pipeline returns a failure whose duration is the elapsed time up
to the evaluation, and the only requests ever issued are the Step A and
Step D ones — the Step E explanation request is never issued and no step is
retried. -/
theorem pipeline_eval_error_aborts (env : PipelineEnv) (userMessage : String)
    (msgA : CompletionMessage) (prompt : String)
    (mcD : Option String) (fc : FunctionCall) (args : List (String × Json))
    (e : JsError)
    (hA : env.client (metaRequest env.model userMessage) = .ok msgA)
    (hAc : msgA.content = some prompt) (hAne : prompt ≠ "")
    (hdev : (env.devAgent prompt).success = true)
    (hint : (env.interpAgent (env.devAgent prompt).code).success = true)
    (hD : env.client (invokeRequest env.model userMessage
      (env.interpAgent (env.devAgent prompt).code).json) = .ok ⟨mcD, some fc⟩)
    (hname : fc.name ≠ "") (hargs : fc.arguments ≠ "")
    (hparse : env.parseArgs fc.arguments = .ok args)
    (heval : env.evalGenerated (env.devAgent prompt).code
      ((env.interpAgent (env.devAgent prompt).code).json.parameters.properties.map Prod.fst)
      (buildParamValues (env.interpAgent (env.devAgent prompt).code).json args) = .error e) :
    codeInterpreterRun env userMessage =
      ⟨pipelineFailure
          (env.clientCost (metaRequest env.model userMessage) + env.devCost +
            env.interpCost +
            env.clientCost (invokeRequest env.model userMessage
              (env.interpAgent (env.devAgent prompt).code).json) +
            env.evalCost) e,
        [metaRequest env.model userMessage,
         invokeRequest env.model userMessage
           (env.interpAgent (env.devAgent prompt).code).json]⟩ := by
  unfold codeInterpreterRun
  simp only [hA, hAc, hAne, if_neg hAne, hdev, hint, hD, hparse, heval]
  simp [hdev, hint, hname, hargs]

/-- Witness for C3: a concrete deterministic environment whose generated
code throws during evaluation. -/
theorem pipeline_eval_error_aborts_witness :
    codeInterpreterRun
        { model := "gpt-4-0613",
          client := fun r =>
            if r.functions.isEmpty then .ok ⟨some "prompt text", none⟩
            else .ok ⟨none, some ⟨"sqrt", "\x7b\x7d"⟩⟩,
          clientCost := fun _ => 10,
          devAgent := fun _ => ⟨"function sqrt(x)", "javascript", true, 5, none⟩,
          devCost := 5,
          interpAgent := fun _ =>
            ⟨⟨"sqrt", "square root", ⟨"object", [("x", ⟨"number", "the input"⟩)], ["x"]⟩⟩,
              true, 4, none⟩,
          interpCost := 4,
          parseArgs := fun _ => .ok [],
          evalGenerated := fun _ _ _ => .error "boom",
          evalCost := 2,
          jsToText := fun _ => "" }
        "Calculate the square root of 20." =
      ⟨pipelineFailure 31 "boom",
        [metaRequest "gpt-4-0613" "Calculate the square root of 20.",
         invokeRequest "gpt-4-0613" "Calculate the square root of 20."
           ⟨"sqrt", "square root", ⟨"object", [("x", ⟨"number", "the input"⟩)], ["x"]⟩⟩]⟩ := by
  have h := pipeline_eval_error_aborts
    { model := "gpt-4-0613",
      client := fun r =>
        if r.functions.isEmpty then .ok ⟨some "prompt text", none⟩
        else .ok ⟨none, some ⟨"sqrt", "\x7b\x7d"⟩⟩,
      clientCost := fun _ => 10,
      devAgent := fun _ => ⟨"function sqrt(x)", "javascript", true, 5, none⟩,
      devCost := 5,
      interpAgent := fun _ =>
        ⟨⟨"sqrt", "square root", ⟨"object", [("x", ⟨"number", "the input"⟩)], ["x"]⟩⟩,
          true, 4, none⟩,
      interpCost := 4,
      parseArgs := fun _ => .ok [],
      evalGenerated := fun _ _ _ => .error "boom",
      evalCost := 2,
      jsToText := fun _ => "" }
    "Calculate the square root of 20."
    ⟨some "prompt text", none⟩ "prompt text" none ⟨"sqrt", "\x7b\x7d"⟩ [] "boom"
    rfl rfl (by decide) rfl rfl rfl (by decide) (by decide) rfl rfl
  exact h
